import Mathlib

/- Verification of the basic-cli interactive shell (src/parser.py,
   src/commands.py, src/executor.py, src/manager.py) against its
   natural-language specification.

   The embedding is shallow: Python classes become Lean structures, each
   handler's `execute` method becomes a Lean function, the ambient process
   state (the OS working directory) is threaded explicitly, printing is
   modelled as a list of emitted stdout chunks (`print(x)` emits the chunk
   `x ++ "\n"`, `print(x, end='')` emits `x`), and Python exceptions that
   cross a boundary are modelled with `Except`.  All string processing is
   done over `List Char` (the `.data` of a `String`) so that every
   definition reduces inside the Lean kernel. -/

deriving instance DecidableEq for Except

namespace BasicCli

/-! ## Character classes -/

/-- The whitespace characters of `shlex.shlex` (`shlex.whitespace = " \t\r\n"`),
used by `shlex.split` to separate tokens. -/
def isShWhitespace (c : Char) : Bool :=
  c = ' ' ∨ c = '\t' ∨ c = '\r' ∨ c = '\n'

/-- The ASCII whitespace characters recognised by Python's `str.split()` and
`str.strip()` (space, tab, newline, carriage return, vertical tab, form feed). -/
def isPyWhitespace (c : Char) : Bool :=
  c = ' ' ∨ c = '\t' ∨ c = '\n' ∨ c = '\r' ∨ c = '\x0b' ∨ c = '\x0c'

/-- Python's `str.strip()` with no argument: drop whitespace from both ends.
`CLIManager._get_input` applies it to each raw input line. -/
def pyStrip (s : String) : String :=
  String.mk (((s.data.dropWhile isPyWhitespace).reverse.dropWhile isPyWhitespace).reverse)

/-- Python's `str.split()` with no argument, as used by `WcCommand.execute`
(`content.split()`): the maximal runs of non-whitespace characters. -/
def pyWordsAux : List Char → List (List Char)
  | [] => [[]]
  | c :: cs =>
    let r := pyWordsAux cs
    if isPyWhitespace c then [] :: r
    else
      match r with
      | [] => [[c]]
      | t :: ts => (c :: t) :: ts

/-- The words of `s` in the sense of Python's `s.split()`. -/
def pyWords (s : String) : List String :=
  ((pyWordsAux s.data).filter (· ≠ [])).map String.mk

/-- Python's `s.split(sep)` for a one-character separator `sep`, keeping empty
pieces (used for `content.split('\n')` in `WcCommand.execute` and for
`path.split('/')` in `posixpath.normpath`). -/
def splitOnChar (sep : Char) : List Char → List (List Char)
  | [] => [[]]
  | c :: cs =>
    let r := splitOnChar sep cs
    if c = sep then [] :: r
    else
      match r with
      | [] => [[c]]
      | t :: ts => (c :: t) :: ts

/-! ## The parser (src/parser.py)

`Parser._parse_command` delegates tokenization to `shlex.split(input)`, which
is `shlex` in POSIX mode with `whitespace_split = True` and no comment
characters.  `shlexGo` is that tokenizer as an explicit state machine over the
remaining characters; its states are `shlex.shlex.state` values: `' '`
(between tokens), `'a'` (inside a word), a quote character, or the escape
character with its saved `escapedstate` (`'a'` or `'"'`).  The `quoted` flag
records whether the pending token saw a quote, so that a closed empty quote
still yields a (empty) token.  `shlex` raises `ValueError("No closing
quotation")` at end of input inside a quote and `ValueError("No escaped
character")` at end of input right after an escape character. -/

/-- A Python exception crossing the parser boundary: `src.parser.ParseError`
or the `ValueError` raised by `shlex.split`. -/
inductive PyExc where
  | parseError (msg : String)
  | valueError (msg : String)
  deriving DecidableEq, Repr

/-- The states of the `shlex` tokenizer in POSIX whitespace-split mode. -/
inductive LexState where
  | space
  | word
  | squote
  | dquote
  | escWord
  | escDquote
  deriving DecidableEq, Repr

/-- One pass of `shlex.split` over the remaining characters.  `tok` is the
pending token, `quoted` whether it saw a quote, `acc` the tokens already
emitted. -/
def shlexGo : List Char → LexState → List Char → Bool → List String → Except PyExc (List String)
  | [], .space, _, _, acc => .ok acc
  | [], .word, tok, _, acc => .ok (acc ++ [String.mk tok])
  | [], .squote, _, _, _ => .error (.valueError "No closing quotation")
  | [], .dquote, _, _, _ => .error (.valueError "No closing quotation")
  | [], .escWord, _, _, _ => .error (.valueError "No escaped character")
  | [], .escDquote, _, _, _ => .error (.valueError "No escaped character")
  | c :: cs, .space, _, _, acc =>
    if isShWhitespace c then shlexGo cs .space [] false acc
    else if c = '\\' then shlexGo cs .escWord [] false acc
    else if c = '\'' then shlexGo cs .squote [] true acc
    else if c = '"' then shlexGo cs .dquote [] true acc
    else shlexGo cs .word [c] false acc
  | c :: cs, .word, tok, quoted, acc =>
    if isShWhitespace c then shlexGo cs .space [] false (acc ++ [String.mk tok])
    else if c = '\'' then shlexGo cs .squote tok true acc
    else if c = '"' then shlexGo cs .dquote tok true acc
    else if c = '\\' then shlexGo cs .escWord tok quoted acc
    else shlexGo cs .word (tok ++ [c]) quoted acc
  | c :: cs, .squote, tok, quoted, acc =>
    if c = '\'' then shlexGo cs .word tok quoted acc
    else shlexGo cs .squote (tok ++ [c]) quoted acc
  | c :: cs, .dquote, tok, quoted, acc =>
    if c = '"' then shlexGo cs .word tok quoted acc
    else if c = '\\' then shlexGo cs .escDquote tok quoted acc
    else shlexGo cs .dquote (tok ++ [c]) quoted acc
  | c :: cs, .escWord, tok, quoted, acc => shlexGo cs .word (tok ++ [c]) quoted acc
  | c :: cs, .escDquote, tok, quoted, acc =>
    if c = '\\' ∨ c = '"' then shlexGo cs .dquote (tok ++ [c]) quoted acc
    else shlexGo cs .dquote (tok ++ ['\\', c]) quoted acc

/-- `shlex.split(s)`: POSIX shell-word splitting.  Validated against CPython's
`shlex.split` (exhaustively on all strings of length at most 4 over the
alphabet of a letter, space, both quotes and backslash, and on 200000 random
strings over a larger alphabet). -/
def shlexSplit (s : String) : Except PyExc (List String) :=
  shlexGo s.data .space [] false []

/-- `src.parser.ParsedCommand`: a command name with its argument list. -/
structure ParsedCommand where
  command_name : String
  args : List String
  deriving DecidableEq, Repr

/-- `src.parser.ParsedInput`: the list of parsed commands of one input line. -/
structure ParsedInput where
  commands : List ParsedCommand
  deriving DecidableEq, Repr

namespace Parser

/-- `Parser._parse_command` (src/parser.py lines 31-50): tokenize with
`shlex.split`; an empty token list raises `ParseError("Empty command")`;
otherwise the first token is the command name and the rest are the
arguments. -/
def parseCommand (input : String) : Except PyExc ParsedCommand :=
  match shlexSplit input with
  | .error e => .error e
  | .ok [] => .error (.parseError "Empty command")
  | .ok (name :: rest) => .ok ⟨name, rest⟩

/-- `Parser.parse` (src/parser.py lines 52-64): wrap the single parsed
command in a `ParsedInput`. -/
def parse (input : String) : Except PyExc ParsedInput :=
  match parseCommand input with
  | .error e => .error e
  | .ok c => .ok ⟨[c]⟩

end Parser

/-! ## Paths (posixpath, as used by src/commands.py)

`os.path` on the POSIX host is `posixpath`.  `CdCommand` and `LsCommand` use
`os.path.isabs`, `os.path.join`, `os.path.normpath` and `os.path.isdir`;
`os.path.expanduser("~")` is modelled by the environment's `home` field.
All three pure path functions are translated from CPython's `posixpath.py`
and were validated against it on 200000 random path strings. -/

/-- `os.path.isabs(p)`: the path starts with a slash. -/
def isabs (p : String) : Bool :=
  p.data.head? = some '/'

/-- `os.path.join(a, b)` for two arguments (CPython `posixpath.join`). -/
def pjoin (a b : String) : String :=
  if b.data.head? = some '/' then b
  else if a.data = [] ∨ a.data.getLast? = some '/' then String.mk (a.data ++ b.data)
  else String.mk (a.data ++ '/' :: b.data)

/-- The component scan of `posixpath.normpath`: drop empty and `.` components;
append a component unless it is a `..` that cancels against a previous real
component (a leading `..` is kept only for relative paths; a `..` at the root
is dropped). -/
def normComps (initialSlashes : Nat) : List (List Char) → List (List Char) → List (List Char)
  | acc, [] => acc
  | acc, comp :: rest =>
    if comp = [] ∨ comp = ['.'] then normComps initialSlashes acc rest
    else if comp ≠ ['.', '.'] ∨ (initialSlashes = 0 ∧ acc = []) ∨ acc.getLast? = some ['.', '.'] then
      normComps initialSlashes (acc ++ [comp]) rest
    else normComps initialSlashes acc.dropLast rest

/-- Rejoin path components with slashes. -/
def joinSlash : List (List Char) → List Char
  | [] => []
  | [c] => c
  | c :: rest => c ++ '/' :: joinSlash rest

/-- `os.path.normpath(p)` (CPython `posixpath.normpath`): collapse `.`, `..`
and repeated slashes; an empty result becomes `"."`; exactly two leading
slashes are preserved (POSIX). -/
def normpath (p : String) : String :=
  if p.data = [] then "."
  else
    let initialSlashes : Nat :=
      if p.data.head? = some '/' then
        if p.data.take 2 = ['/', '/'] ∧ p.data.take 3 ≠ ['/', '/', '/'] then 2 else 1
      else 0
    let comps := normComps initialSlashes [] (splitOnChar '/' p.data)
    let path := List.replicate initialSlashes '/' ++ joinSlash comps
    if path = [] then "." else String.mk path

/-! ## The filesystem and process environment

The shell's handlers touch the host only through `open`/`read`,
`os.path.getsize`, `os.path.isdir`, `os.listdir`, `os.getcwd`, `os.chdir`,
`os.path.expanduser` and `subprocess.run` (spec section 6).  `Env` is that
host: a finite map from absolute normalized paths to file data, one from
absolute normalized paths to directory entry lists, the home directory, and
an oracle for spawning an external process (`None` models
`FileNotFoundError`, otherwise the child's exit code, captured stdout and
captured stderr).  The kernel resolves a possibly-relative path passed to a
syscall against the process working directory and normalizes it (symlinks
are not modelled), and `os.getcwd` returns that normalized absolute path. -/

/-- The data of one regular file: its content as read in text mode, and its
size in bytes as reported by `os.path.getsize`. -/
structure FileData where
  content : String
  byteSize : Nat
  deriving DecidableEq, Repr

/-- The host environment: filesystem, home directory and process spawner. -/
structure Env where
  files : List (String × FileData)
  dirs : List (String × List String)
  home : String
  spawn : String → List String → String → Option (Int × String × String)

/-- OS resolution of a possibly-relative path against the process working
directory: absolute paths pass through `os.path.join` unchanged, relative
ones are joined to the working directory; the kernel's `.`/`..` traversal is
modelled by `normpath`. -/
def osResolve (cwd p : String) : String :=
  normpath (pjoin cwd p)

/-- `os.path.isdir(p)` for a process whose working directory is `cwd`. -/
def isdirOS (env : Env) (cwd p : String) : Bool :=
  (List.lookup (osResolve cwd p) env.dirs).isSome

/-- `os.listdir(p)` for a process whose working directory is `cwd`. -/
def listdirOS (env : Env) (cwd p : String) : Option (List String) :=
  List.lookup (osResolve cwd p) env.dirs

/-- `open(p).read()` together with `os.path.getsize(p)` for a process whose
working directory is `cwd`: `none` models the `FileNotFoundError`. -/
def openFileOS (env : Env) (cwd p : String) : Option FileData :=
  List.lookup (osResolve cwd p) env.files

/-! ## Sorting (Python `sorted` on strings)

`LsCommand.execute` prints `sorted(entries)`.  Python compares strings
lexicographically by code point; `pyLe` is that order.  Because the order is
total and antisymmetric, the ascending permutation of a list is unique, so
any sorted permutation models `sorted`; `pySorted` is insertion sort. -/

/-- Code-point lexicographic comparison of character lists (Python `<=` on
strings). -/
def lexLe : List Char → List Char → Bool
  | [], _ => true
  | _ :: _, [] => false
  | a :: as, b :: bs => if a = b then lexLe as bs else decide (a < b)

/-- Python's `<=` on strings, as a relation. -/
def pyLe (a b : String) : Prop :=
  lexLe a.data b.data = true

instance : DecidableRel pyLe := fun a b => by
  unfold pyLe; infer_instance

/-- `sorted(entries)` for a list of strings. -/
def pySorted (l : List String) : List String :=
  List.insertionSort pyLe l

/-! ## The command handlers (src/commands.py)

Each `XxxCommand.execute(command, current_dir=None)` becomes a function from
the parsed command, the `current_dir` argument (`Option String`, `none` for
Python `None`), the process working directory and the environment to a
`HandlerOut`: the returned exit status, the working directory after the call
(only `cd` changes it, through `os.chdir`), and the chunks printed to stdout.
`ExitCommand.execute` instead raises `ExitCommandException`; it is the only
handler that throws across the boundary, so the exceptional result is kept
out of `HandlerOut` and appears as `Except ExitCommandException` where a
handler is invoked.  A Python truthiness test `if current_dir` is true
exactly when the argument is neither `None` nor the empty string. -/

/-- The result of one handler invocation that returns normally. -/
structure HandlerOut where
  exit : Int
  osCwd : String
  out : List String
  deriving DecidableEq, Repr

/-- `src.commands.ExitCommandException`: the termination control-transfer. -/
inductive ExitCommandException where
  | mk
  deriving DecidableEq, Repr

/-- Python truthiness of the `current_dir` parameter. -/
def dirTruthy : Option String → Bool
  | none => false
  | some s => s ≠ ""

/-- `current_dir if current_dir else os.getcwd()`. -/
def dirOrCwd (currentDir : Option String) (osCwd : String) : String :=
  match currentDir with
  | some c => if c ≠ "" then c else osCwd
  | none => osCwd

/-- `CatCommand.execute` (src/commands.py lines 26-45): print the first
argument's file content verbatim (`print(..., end='')`), else an
`Error `cat`:` diagnostic; an absent first argument raises `IndexError`
inside the `try`, caught by the same `except`. -/
def catExecute (cmd : ParsedCommand) (_currentDir : Option String) (osCwd : String)
    (env : Env) : HandlerOut :=
  match cmd.args with
  | [] => ⟨1, osCwd, ["Error `cat`: list index out of range" ++ "\n"]⟩
  | fp :: _ =>
    match openFileOS env osCwd fp with
    | some f => ⟨0, osCwd, [f.content]⟩
    | none =>
      ⟨1, osCwd, ["Error `cat`: [Errno 2] No such file or directory: '" ++ fp ++ "'" ++ "\n"]⟩

/-- `EchoCommand.execute` (src/commands.py lines 48-54): print the arguments
joined by single spaces. -/
def echoExecute (cmd : ParsedCommand) (_currentDir : Option String) (osCwd : String)
    (_env : Env) : HandlerOut :=
  ⟨0, osCwd, [String.intercalate " " cmd.args ++ "\n"]⟩

/-- `WcCommand.execute` (src/commands.py lines 57-83): line count is
`len(content.split('\n'))`, word count is `len(content.split())`, byte count
is `os.path.getsize(filepath)`; printed as `"<lines> <words> <bytes>"`. -/
def wcExecute (cmd : ParsedCommand) (_currentDir : Option String) (osCwd : String)
    (env : Env) : HandlerOut :=
  match cmd.args with
  | [] => ⟨1, osCwd, ["Error `wc`: list index out of range" ++ "\n"]⟩
  | fp :: _ =>
    match openFileOS env osCwd fp with
    | some f =>
      let lines := (splitOnChar '\n' f.content.data).length
      let words := (pyWords f.content).length
      ⟨0, osCwd, [toString lines ++ " " ++ toString words ++ " " ++ toString f.byteSize ++ "\n"]⟩
    | none =>
      ⟨1, osCwd, ["Error `wc`: [Errno 2] No such file or directory: '" ++ fp ++ "'" ++ "\n"]⟩

/-- `PwdCommand.execute` (src/commands.py lines 86-95): print `current_dir`
when it is truthy, else `os.getcwd()`. -/
def pwdExecute (_cmd : ParsedCommand) (currentDir : Option String) (osCwd : String)
    (_env : Env) : HandlerOut :=
  match currentDir with
  | some c => if c ≠ "" then ⟨0, osCwd, [c ++ "\n"]⟩ else ⟨0, osCwd, [osCwd ++ "\n"]⟩
  | none => ⟨0, osCwd, [osCwd ++ "\n"]⟩

/-- `DefaultCommand.execute` (src/commands.py lines 110-136): run the named
external process with `subprocess.run(..., check=True, cwd=cwd)`.  A missing
executable (`FileNotFoundError`) prints `<name>: command not found` and
returns 1; `check=True` turns a nonzero child exit into
`CalledProcessError`, whose handler prints the captured stderr and
propagates the child's exit code; otherwise the captured stdout is printed
and 0 (the child's `returncode`) returned. -/
def defaultExecute (cmd : ParsedCommand) (currentDir : Option String) (osCwd : String)
    (env : Env) : HandlerOut :=
  let cwd := dirOrCwd currentDir osCwd
  match env.spawn cmd.command_name cmd.args cwd with
  | none => ⟨1, osCwd, [cmd.command_name ++ ": command not found" ++ "\n"]⟩
  | some (code, childOut, childErr) =>
    if code ≠ 0 then
      ⟨code, osCwd, ["error in execution: " ++ cmd.command_name ++ ": " ++ childErr ++ "\n"]⟩
    else ⟨code, osCwd, [childOut ++ "\n"]⟩

/-- The target directory computed by `CdCommand.execute` (src/commands.py
lines 153-160): no argument targets `os.path.expanduser("~")`; a relative
target is joined to `current_dir` and normalized only when `current_dir` is
truthy. -/
def cdTarget (args : List String) (currentDir : Option String) (home : String) : String :=
  let target := match args with
    | [] => home
    | a :: _ => a
  match currentDir with
  | some cur => if cur ≠ "" ∧ ¬ isabs target then normpath (pjoin cur target) else target
  | none => target

/-- `CdCommand.execute` (src/commands.py lines 139-173): validate the target
with `os.path.isdir`; on failure print `cd: <target>: No such directory` and
return 1 leaving the process directory unchanged; on success `os.chdir` to
it and return 0.  The `hasattr(self, 'manager')` branch is dead in this
wiring: `CommandRegistry.get_command` constructs a fresh handler instance on
every call and nothing ever attaches a `manager` attribute to it. -/
def cdExecute (cmd : ParsedCommand) (currentDir : Option String) (osCwd : String)
    (env : Env) : HandlerOut :=
  let target := cdTarget cmd.args currentDir env.home
  if isdirOS env osCwd target then ⟨0, osResolve osCwd target, []⟩
  else ⟨1, osCwd, ["cd: " ++ target ++ ": No such directory" ++ "\n"]⟩

/-- The target directory computed by `LsCommand.execute` (src/commands.py
lines 191-196): no argument targets `current_dir` when truthy else
`os.getcwd()`; one argument resolves exactly like `cd`'s target. -/
def lsTarget (args : List String) (currentDir : Option String) (osCwd : String) : String :=
  match args with
  | [] => dirOrCwd currentDir osCwd
  | a :: _ =>
    match currentDir with
    | some cur => if cur ≠ "" ∧ ¬ isabs a then normpath (pjoin cur a) else a
    | none => a

/-- `LsCommand.execute` (src/commands.py lines 176-209): validate the target
with `os.path.isdir`, then print each entry of `sorted(os.listdir(target))`
on its own line; a bad target prints `ls: <target>: No such directory` and
returns 1. -/
def lsExecute (cmd : ParsedCommand) (currentDir : Option String) (osCwd : String)
    (env : Env) : HandlerOut :=
  let target := lsTarget cmd.args currentDir osCwd
  match listdirOS env osCwd target with
  | some entries => ⟨0, osCwd, (pySorted entries).map (· ++ "\n")⟩
  | none => ⟨1, osCwd, ["ls: " ++ target ++ ": No such directory" ++ "\n"]⟩

/-! ## The command registry and the executor (src/commands.py, src/executor.py) -/

/-- The eight handler variants: one per builtin plus the external fallback. -/
inductive CommandKind where
  | cat
  | echo
  | wc
  | pwd
  | exitCmd
  | cd
  | ls
  | defaultCmd
  deriving DecidableEq, Repr

/-- `CommandRegistry._commands` (src/commands.py lines 215-223). -/
def commandsMap : List (String × CommandKind) :=
  [("cat", .cat), ("echo", .echo), ("wc", .wc), ("pwd", .pwd),
   ("exit", .exitCmd), ("cd", .cd), ("ls", .ls)]

/-- `CommandRegistry.get_command` (src/commands.py lines 225-233):
`self._commands.get(name, DefaultCommand)()`. -/
def get_command (name : String) : CommandKind :=
  (List.lookup name commandsMap).getD .defaultCmd

/-- Dispatch one handler invocation; only `ExitCommand.execute` raises. -/
def runHandler (kind : CommandKind) (cmd : ParsedCommand) (currentDir : Option String)
    (osCwd : String) (env : Env) : Except ExitCommandException HandlerOut :=
  match kind with
  | .cat => .ok (catExecute cmd currentDir osCwd env)
  | .echo => .ok (echoExecute cmd currentDir osCwd env)
  | .wc => .ok (wcExecute cmd currentDir osCwd env)
  | .pwd => .ok (pwdExecute cmd currentDir osCwd env)
  | .exitCmd => .error .mk
  | .cd => .ok (cdExecute cmd currentDir osCwd env)
  | .ls => .ok (lsExecute cmd currentDir osCwd env)
  | .defaultCmd => .ok (defaultExecute cmd currentDir osCwd env)

/-- The observable outcome of `Executor.execute`: the returned exit code (or
the propagated `ExitCommandException`), the process working directory after
the call, everything printed, and — for the invariants about wiring — the
trace of registry lookups actually performed, each with the `current_dir`
value handed to the looked-up handler. -/
structure ExecResult where
  exit : Except ExitCommandException Int
  osCwd : String
  out : List String
  calls : List (String × Option String)
  deriving DecidableEq, Repr

/-- The loop body of `Executor.execute` (src/executor.py lines 11-31): for
each command, look up its handler in the registry and execute it; the exit
code of the last command is returned, output accumulates as printed, and an
exception aborts the loop after the output printed so far. -/
def executorGo (env : Env) (currentDir : Option String) :
    List ParsedCommand → String → Int → List String → List (String × Option String) → ExecResult
  | [], osCwd, exitCode, out, calls => ⟨.ok exitCode, osCwd, out, calls⟩
  | c :: rest, osCwd, _, out, calls =>
    match runHandler (get_command c.command_name) c currentDir osCwd env with
    | .error e => ⟨.error e, osCwd, out, calls ++ [(c.command_name, currentDir)]⟩
    | .ok h => executorGo env currentDir rest h.osCwd h.exit (out ++ h.out)
        (calls ++ [(c.command_name, currentDir)])

/-- `Executor.execute(commands, current_dir=None)` with `exit_code = 0`
initially. -/
def executorExecute (commands : ParsedInput) (currentDir : Option String)
    (osCwd : String) (env : Env) : ExecResult :=
  executorGo env currentDir commands.commands osCwd 0 [] []

/-! ## The session loop (src/manager.py) -/

/-- The session state owned by `CLIManager`: the activity flag, and the
process working directory (the only directory state this wiring has). -/
structure SessionState where
  is_running : Bool
  osCwd : String
  deriving DecidableEq, Repr

/-- What one iteration of `CLIManager.start` receives from the input
collaborator: a line, end-of-input (`EOFError`), or `KeyboardInterrupt`. -/
inductive InputEvent where
  | line (raw : String)
  | eof
  | interrupt
  deriving DecidableEq, Repr

/-- `CLIManager._process_command` (src/manager.py lines 51-65) after the
parse: an empty command list returns 0 without touching the executor,
otherwise `self.executor.execute(parsed_input)` is called — with no
`current_dir` argument, so the executor receives its default `None`. -/
def processParsed (pi : ParsedInput) (osCwd : String) (env : Env) : ExecResult :=
  if pi.commands.isEmpty then ⟨.ok 0, osCwd, [], []⟩
  else executorExecute pi none osCwd env

/-- `str(e)` for the two exceptions the parser can raise; `CLIManager.start`
prints it after the `Error: ` prefix. -/
def excMessage : PyExc → String
  | .parseError m => m
  | .valueError m => m

/-- One iteration of the `CLIManager.start` loop (src/manager.py lines
15-35) from a running state: strip the raw line and skip it when empty;
parse it, a parse failure printing `Error: <msg>` and continuing; execute,
`ExitCommandException` printing the closing notice and stopping, a normal
return printing `Exit code: <n>`; `EOFError` prints the termination notice
and stops; `KeyboardInterrupt` prints the interrupt notice and stops. -/
def managerStep (s : SessionState) (ev : InputEvent) (env : Env) :
    SessionState × List String :=
  match ev with
  | .eof => (⟨false, s.osCwd⟩, ["\nSession terminated.\n"])
  | .interrupt => (⟨false, s.osCwd⟩, ["\nInterrupt received, closing...\n\n"])
  | .line raw =>
    let inp := pyStrip raw
    if inp = "" then (s, [])
    else
      match Parser.parse inp with
      | .error e => (s, ["Error: " ++ excMessage e ++ "\n"])
      | .ok pi =>
        let r := processParsed pi s.osCwd env
        match r.exit with
        | .error _ => (⟨false, r.osCwd⟩, r.out ++ ["`exit` received, closing...\n\n"])
        | .ok code => (⟨s.is_running, r.osCwd⟩, r.out ++ ["Exit code: " ++ toString code ++ "\n"])

/-! ## A concrete host for witnesses and counterexamples -/

/-- A small concrete host: one 17-byte file `/tmp/f.txt` holding
`"line1\nline2\nline3"`, directories `/tmp`, `/tmp/x`, `/tmp/x/y` and
`/tmp/x/relative/path`, home `/root`, and no external executables. -/
def sampleEnv : Env :=
  ⟨[("/tmp/f.txt", ⟨"line1\nline2\nline3", 17⟩)],
   [("/tmp", ["x", "f.txt"]), ("/tmp/x", ["y"]), ("/tmp/x/y", []),
    ("/tmp/x/relative/path", [])],
   "/root",
   fun _ _ _ => none⟩

/-! ## Helper lemmas -/

/-- Inside a single-quoted region the tokenizer copies quote-free characters
into the pending token unchanged. -/
theorem shlexGo_squote_chunk (cs : List Char) (h : ∀ c ∈ cs, c ≠ '\'') :
    ∀ (rest tok : List Char) (quoted : Bool) (acc : List String),
      shlexGo (cs ++ rest) .squote tok quoted acc
        = shlexGo rest .squote (tok ++ cs) quoted acc := by
  induction cs with
  | nil => intro rest tok quoted acc; simp
  | cons c cs ih =>
    intro rest tok quoted acc
    have hc : ¬ (c = '\'') := h c (List.mem_cons_self c cs)
    have h2 : ∀ x ∈ cs, x ≠ '\'' := fun x hx => h x (List.mem_cons_of_mem c hx)
    simp only [List.cons_append, shlexGo, if_neg hc, List.append_eq]
    rw [ih h2]
    simp

/-- `lexLe` is total. -/
theorem lexLe_total (a : List Char) : ∀ b, lexLe a b = true ∨ lexLe b a = true := by
  induction a with
  | nil => intro b; left; rfl
  | cons x xs ih =>
    intro b
    cases b with
    | nil => right; rfl
    | cons y ys =>
      by_cases hxy : x = y
      · subst hxy
        simpa [lexLe] using ih ys
      · rcases lt_or_gt_of_ne hxy with hlt | hgt
        · left; simp [lexLe, hxy, hlt]
        · have hyx : ¬ (y = x) := ne_of_lt hgt
          right; simp [lexLe, hyx, hgt]

/-- `lexLe` is transitive. -/
theorem lexLe_trans : ∀ {a b c : List Char},
    lexLe a b = true → lexLe b c = true → lexLe a c = true := by
  intro a
  induction a with
  | nil => intro b c _ _; rfl
  | cons x xs ih =>
    intro b c h1 h2
    cases b with
    | nil => simp [lexLe] at h1
    | cons y ys =>
      cases c with
      | nil => simp [lexLe] at h2
      | cons z zs =>
        by_cases hxy : x = y
        · subst hxy
          simp only [lexLe, if_pos rfl] at h1
          by_cases hyz : x = z
          · subst hyz
            simp only [lexLe, if_pos rfl] at h2 ⊢
            exact ih h1 h2
          · simp only [lexLe, if_neg hyz] at h2 ⊢
            exact h2
        · simp only [lexLe, if_neg hxy, decide_eq_true_eq] at h1
          have hxz : x < z := by
            by_cases hyz : y = z
            · exact hyz ▸ h1
            · simp only [lexLe, if_neg hyz, decide_eq_true_eq] at h2
              exact lt_trans h1 h2
          simp [lexLe, ne_of_lt hxz, hxz]

instance : IsTotal String pyLe :=
  ⟨fun a b => lexLe_total a.data b.data⟩

instance : IsTrans String pyLe :=
  ⟨fun _ _ _ h1 h2 => lexLe_trans h1 h2⟩

/-- `os.path.join` returns an absolute second argument unchanged. -/
theorem pjoin_absolute (a b : String) (h : isabs b = true) : pjoin a b = b := by
  have h2 : b.data.head? = some '/' := of_decide_eq_true (by simpa [isabs] using h)
  unfold pjoin
  rw [if_pos h2]

/-! ## The claims -/

/-- C1: for every input line that POSIX shell-word splitting divides into at
least one token, `parse` returns a `ParsedInput` with exactly one
`ParsedCommand` whose name is the first token and whose args are the
remaining tokens in order; a quoted substring stays one token with the
quotes stripped (shown in general for single quotes around quote-free text,
and on the spec's double-quote example). -/
theorem C1_parse_single_command_first_rest :
    (∀ (line name : String) (rest : List String),
        shlexSplit line = .ok (name :: rest) →
        Parser.parse line = .ok ⟨[⟨name, rest⟩]⟩)
    ∧ (∀ s : String, (∀ c ∈ s.data, c ≠ '\'') →
        Parser.parse ("echo '" ++ s ++ "'") = .ok ⟨[⟨"echo", [s]⟩]⟩)
    ∧ Parser.parse "echo \"hello world\"" = .ok ⟨[⟨"echo", ["hello world"]⟩]⟩ := by
  refine ⟨?_, ?_, by decide⟩
  · intro line name rest h
    unfold Parser.parse Parser.parseCommand
    rw [h]
  · intro s hs
    have key : shlexSplit ("echo '" ++ s ++ "'") = .ok ["echo", s] := by
      unfold shlexSplit
      show shlexGo (s.data ++ ['\'']) .squote [] true ["echo"] = .ok ["echo", s]
      rw [shlexGo_squote_chunk s.data hs]
      rfl
    unfold Parser.parse Parser.parseCommand
    rw [key]

/-- C1 witness: the general clauses instantiated at `"echo hi there"` and at
the spec's single-quote example. -/
theorem C1_parse_single_command_first_rest_witness :
    Parser.parse "echo hi there" = .ok ⟨[⟨"echo", ["hi", "there"]⟩]⟩
    ∧ Parser.parse "echo 'hello world'" = .ok ⟨[⟨"echo", ["hello world"]⟩]⟩ :=
  ⟨C1_parse_single_command_first_rest.1 "echo hi there" "echo" ["hi", "there"] (by decide),
   C1_parse_single_command_first_rest.2.1 "hello world" (by decide)⟩

/-- C2 counterexample: the claim says a line consisting only of quote
characters raises the empty-command `ParseError`, but `shlex.split("''")`
yields the single empty token `['']`, so `parse` succeeds with one command
whose name is the empty string. -/
theorem C2_quote_only_line_parses :
    Parser.parse "''" = .ok ⟨[⟨"", []⟩]⟩ := by decide

/-- C2 as amended: `parse` fails with `ParseError("Empty command")` for every
line that tokenizes to zero tokens — in particular empty and whitespace-only
input — and fails with the `shlex` parse error on an unterminated quote, and
never successfully returns other than exactly one command; but a line made
only of quote characters tokenizes to one empty token and parses
successfully as a command with empty name. -/
theorem C2_empty_and_malformed_fail :
    (∀ line, shlexSplit line = .ok [] →
        Parser.parse line = .error (.parseError "Empty command"))
    ∧ Parser.parse "" = .error (.parseError "Empty command")
    ∧ Parser.parse "   " = .error (.parseError "Empty command")
    ∧ Parser.parse "echo 'oops" = .error (.valueError "No closing quotation")
    ∧ Parser.parse "\"\"" = .ok ⟨[⟨"", []⟩]⟩
    ∧ (∀ line pi, Parser.parse line = .ok pi → pi.commands.length = 1) := by
  refine ⟨?_, by decide, by decide, by decide, by decide, ?_⟩
  · intro line h
    unfold Parser.parse Parser.parseCommand
    rw [h]
  · intro line pi h
    unfold Parser.parse Parser.parseCommand at h
    cases hs : shlexSplit line with
    | error e => rw [hs] at h; exact absurd h (by simp)
    | ok toks =>
      rw [hs] at h
      cases toks with
      | nil => exact absurd h (by simp)
      | cons name rest =>
        simp only [Except.ok.injEq] at h
        rw [← h]
        rfl

/-- C2 witness: the zero-token clause applied to the empty line, and the
exactly-one-command clause applied to a successfully parsed line. -/
theorem C2_empty_and_malformed_fail_witness :
    Parser.parse "" = .error (.parseError "Empty command")
    ∧ (⟨[⟨"echo", ["hi"]⟩]⟩ : ParsedInput).commands.length = 1 :=
  ⟨C2_empty_and_malformed_fail.1 "" (by decide),
   C2_empty_and_malformed_fail.2.2.2.2.2 "echo hi" ⟨[⟨"echo", ["hi"]⟩]⟩ (by decide)⟩

/-- C10: `Executor.execute` on a `ParsedInput` with no commands performs no
registry lookup and no handler invocation (empty call trace), prints
nothing, leaves the working directory alone and returns exit code 0; and
`CLIManager._process_command` likewise returns 0 for a parsed input with no
commands without touching the executor. -/
theorem C10_empty_input_executes_nothing :
    (∀ (d : Option String) (osCwd : String) (env : Env),
        executorExecute ⟨[]⟩ d osCwd env = ⟨.ok 0, osCwd, [], []⟩)
    ∧ (∀ (pi : ParsedInput) (osCwd : String) (env : Env), pi.commands = [] →
        processParsed pi osCwd env = ⟨.ok 0, osCwd, [], []⟩) := by
  refine ⟨fun d osCwd env => rfl, ?_⟩
  intro pi osCwd env h
  unfold processParsed
  rw [h]
  rfl

/-- C3: `cd` with no arguments targets the home directory; a relative
target is resolved against the current directory with `.`/`..` normalized
(in particular `relative/path` against `/tmp/x` gives
`/tmp/x/relative/path`) while an absolute target is used as-is; an existing
target becomes the new current directory with exit 0 (shown both in general
— the working directory becomes the OS resolution of the target — and
concretely), a missing one prints `cd: <target>: No such directory`, exits 1
and leaves the current directory unchanged. -/
theorem C3_cd_resolution_and_validation :
    (∀ (home : String) (d : Option String), isabs home = true → cdTarget [] d home = home)
    ∧ (∀ (cur t home : String), cur ≠ "" → isabs t = false →
        cdTarget [t] (some cur) home = normpath (pjoin cur t))
    ∧ (∀ (t home : String) (d : Option String), isabs t = true → cdTarget [t] d home = t)
    ∧ (∀ home, cdTarget ["relative/path"] (some "/tmp/x") home = "/tmp/x/relative/path")
    ∧ (∀ (env : Env) (osCwd : String) (cmd : ParsedCommand) (d : Option String),
        isdirOS env osCwd (cdTarget cmd.args d env.home) = true →
        cdExecute cmd d osCwd env
          = ⟨0, osResolve osCwd (cdTarget cmd.args d env.home), []⟩)
    ∧ (∀ (env : Env) (osCwd : String) (cmd : ParsedCommand) (d : Option String),
        isdirOS env osCwd (cdTarget cmd.args d env.home) = false →
        cdExecute cmd d osCwd env
          = ⟨1, osCwd, ["cd: " ++ cdTarget cmd.args d env.home ++ ": No such directory" ++ "\n"]⟩)
    ∧ cdExecute ⟨"cd", ["relative/path"]⟩ (some "/tmp/x") "/tmp/x" sampleEnv
        = ⟨0, "/tmp/x/relative/path", []⟩ := by
  refine ⟨?_, ?_, ?_, fun home => rfl, ?_, ?_, by decide⟩
  · intro home d h
    cases d with
    | none => rfl
    | some cur =>
      unfold cdTarget
      simp [h]
  · intro cur t home hcur ht
    unfold cdTarget
    simp [hcur, ht]
  · intro t home d h
    cases d with
    | none => rfl
    | some cur =>
      unfold cdTarget
      simp [h]
  · intro env osCwd cmd d h
    unfold cdExecute
    rw [if_pos h]
  · intro env osCwd cmd d h
    unfold cdExecute
    rw [if_neg (by rw [h]; exact Bool.false_ne_true)]

/-- C3 witness: the general clauses at concrete inputs — relative and
absolute resolution, no-argument home targeting, and both validation
outcomes on the concrete host. -/
theorem C3_cd_resolution_and_validation_witness :
    cdTarget [] (some "/tmp") "/root" = "/root"
    ∧ cdTarget ["y"] (some "/tmp/x") "/root" = "/tmp/x/y"
    ∧ cdTarget ["/tmp/x"] (some "/tmp") "/root" = "/tmp/x"
    ∧ cdExecute ⟨"cd", ["/tmp/x"]⟩ none "/tmp" sampleEnv = ⟨0, "/tmp/x", []⟩
    ∧ cdExecute ⟨"cd", ["nope"]⟩ none "/tmp" sampleEnv
        = ⟨1, "/tmp", ["cd: nope: No such directory" ++ "\n"]⟩ :=
  ⟨C3_cd_resolution_and_validation.1 "/root" (some "/tmp") (by decide),
   C3_cd_resolution_and_validation.2.1 "/tmp/x" "y" "/root" (by decide) (by decide),
   C3_cd_resolution_and_validation.2.2.1 "/tmp/x" "/root" (some "/tmp") (by decide),
   C3_cd_resolution_and_validation.2.2.2.2.1 sampleEnv "/tmp" ⟨"cd", ["/tmp/x"]⟩ none (by decide),
   C3_cd_resolution_and_validation.2.2.2.2.2.1 sampleEnv "/tmp" ⟨"cd", ["nope"]⟩ none (by decide)⟩

/-- C4 (against the claim and the repository's own test): the Session Loop
does not hand the executor any directory — `CLIManager._process_command`
calls `executor.execute(parsed_input)` with `current_dir` left at its `None`
default and `CLIManager` has no tracked directory attribute at all — so even
after `cd /tmp/x` has established a directory, the `pwd` handler is invoked
with `current_dir = None` (call trace `[("pwd", none)]`) and prints the
ambient OS working directory through its fallback branch, not an explicitly
received directory. -/
theorem C4_handlers_receive_none_directory :
    managerStep ⟨true, "/tmp"⟩ (.line "cd /tmp/x") sampleEnv
      = (⟨true, "/tmp/x"⟩, ["Exit code: 0\n"])
    ∧ (processParsed ⟨[⟨"pwd", []⟩]⟩ "/tmp/x" sampleEnv).calls = [("pwd", none)]
    ∧ (processParsed ⟨[⟨"pwd", []⟩]⟩ "/tmp/x" sampleEnv).out = ["/tmp/x" ++ "\n"]
    ∧ (processParsed ⟨[⟨"ls", []⟩, ⟨"cat", ["/tmp/f.txt"]⟩]⟩ "/tmp/x" sampleEnv).calls
        = [("ls", none), ("cat", none)] := by
  refine ⟨by decide, by decide, by decide, by decide⟩

/-- C5: executing `exit` signals termination through the distinct
`ExitCommandException` control-transfer, not a normal exit code: the session
loop prints the closing notice, stops running, and prints no `Exit code:`
line for that command. -/
theorem C5_exit_control_transfer (osCwd : String) (env : Env) :
    (processParsed ⟨[⟨"exit", []⟩]⟩ osCwd env).exit = .error .mk
    ∧ managerStep ⟨true, osCwd⟩ (.line "exit") env
        = (⟨false, osCwd⟩, ["`exit` received, closing...\n\n"])
    ∧ ∀ chunk ∈ (managerStep ⟨true, osCwd⟩ (.line "exit") env).2,
        "Exit code: ".data.isPrefixOf chunk.data = false := by
  have h1 : managerStep ⟨true, osCwd⟩ (.line "exit") env
      = (⟨false, osCwd⟩, ["`exit` received, closing...\n\n"]) := rfl
  refine ⟨rfl, h1, ?_⟩
  intro chunk hm
  rw [h1] at hm
  simp only [List.mem_singleton] at hm
  subst hm
  decide

/-- C5 witness: the session step on `exit` at a concrete host. -/
theorem C5_exit_control_transfer_witness :
    managerStep ⟨true, "/tmp"⟩ (.line "exit") sampleEnv
      = (⟨false, "/tmp"⟩, ["`exit` received, closing...\n\n"]) :=
  (C5_exit_control_transfer "/tmp" sampleEnv).2.1

/-- C7: `wc` reads its first argument as a file and prints
`"<lines> <words> <bytes>"` with lines the number of `\n`-separated segments
of the content (a trailing empty segment counts, shown on `"a\n"`), words
the number of whitespace-delimited tokens and bytes the file size, exiting
0; on the 17-byte file `"line1\nline2\nline3"` it prints `"3 3 17"`; an
unreadable file prints an `Error `wc`:` diagnostic and exits 1. -/
theorem C7_wc_counts :
    (∀ (env : Env) (osCwd fp : String) (d : Option String) (f : FileData) (rest : List String),
        openFileOS env osCwd fp = some f →
        wcExecute ⟨"wc", fp :: rest⟩ d osCwd env
          = ⟨0, osCwd, [toString (splitOnChar '\n' f.content.data).length ++ " "
              ++ toString (pyWords f.content).length ++ " "
              ++ toString f.byteSize ++ "\n"]⟩)
    ∧ (∀ (env : Env) (osCwd fp : String) (d : Option String) (rest : List String),
        openFileOS env osCwd fp = none →
        wcExecute ⟨"wc", fp :: rest⟩ d osCwd env
          = ⟨1, osCwd,
              ["Error `wc`: [Errno 2] No such file or directory: '" ++ fp ++ "'" ++ "\n"]⟩)
    ∧ wcExecute ⟨"wc", ["/tmp/f.txt"]⟩ none "/" sampleEnv = ⟨0, "/", ["3 3 17\n"]⟩
    ∧ (splitOnChar '\n' "a\n".data).length = 2
    ∧ (splitOnChar '\n' "a".data).length = 1 := by
  refine ⟨?_, ?_, by decide, by decide, by decide⟩
  · intro env osCwd fp d f rest h
    simp only [wcExecute, h]
  · intro env osCwd fp d rest h
    simp only [wcExecute, h]

/-- C7 witness: the success clause at the concrete 17-byte file and the
failure clause at a missing file. -/
theorem C7_wc_counts_witness :
    wcExecute ⟨"wc", ["/tmp/f.txt"]⟩ none "/tmp" sampleEnv = ⟨0, "/tmp", ["3 3 17\n"]⟩
    ∧ wcExecute ⟨"wc", ["/tmp/nope"]⟩ none "/tmp" sampleEnv
        = ⟨1, "/tmp",
            ["Error `wc`: [Errno 2] No such file or directory: '" ++ "/tmp/nope" ++ "'" ++ "\n"]⟩ := by
  constructor
  · have h := C7_wc_counts.1 sampleEnv "/tmp" "/tmp/f.txt" none
      ⟨"line1\nline2\nline3", 17⟩ [] (by decide)
    rw [h]
    decide
  · exact C7_wc_counts.2.1 sampleEnv "/tmp" "/tmp/nope" none [] (by decide)

/-- C6: the session never ends because one command fails — a parse failure
on a non-blank line is caught and reported with one `Error:` diagnostic
line and the session keeps running, and a step from a running session stops
running only when the input line executed the `exit` control-transfer;
end-of-input and an external interrupt are the other two (non-failure) ways
the session ends, each with its own notice. -/
theorem C6_loop_survives_failures :
    (∀ (osCwd : String) (env : Env) (raw : String) (e : PyExc),
        pyStrip raw ≠ "" →
        Parser.parse (pyStrip raw) = .error e →
        managerStep ⟨true, osCwd⟩ (.line raw) env
          = (⟨true, osCwd⟩, ["Error: " ++ excMessage e ++ "\n"]))
    ∧ (∀ (osCwd : String) (env : Env) (raw : String),
        (managerStep ⟨true, osCwd⟩ (.line raw) env).1.is_running = false →
        ∃ pi, Parser.parse (pyStrip raw) = .ok pi
          ∧ (processParsed pi osCwd env).exit = .error .mk)
    ∧ (∀ (osCwd : String) (env : Env),
        managerStep ⟨true, osCwd⟩ .eof env = (⟨false, osCwd⟩, ["\nSession terminated.\n"]))
    ∧ (∀ (osCwd : String) (env : Env),
        managerStep ⟨true, osCwd⟩ .interrupt env
          = (⟨false, osCwd⟩, ["\nInterrupt received, closing...\n\n"])) := by
  refine ⟨?_, ?_, fun osCwd env => rfl, fun osCwd env => rfl⟩
  · intro osCwd env raw e hne hp
    simp only [managerStep, if_neg hne, hp]
  · intro osCwd env raw h
    by_cases h0 : pyStrip raw = ""
    · simp only [managerStep, if_pos h0] at h
      exact absurd h (by simp)
    · cases hp : Parser.parse (pyStrip raw) with
      | error e =>
        simp only [managerStep, if_neg h0, hp] at h
        exact absurd h (by simp)
      | ok pi =>
        cases hr : (processParsed pi osCwd env).exit with
        | error ex =>
          cases ex
          exact ⟨pi, rfl, hr⟩
        | ok code =>
          simp only [managerStep, if_neg h0, hp, hr] at h
          exact absurd h (by simp)

/-- C6 witness: the parse-failure clause at an unterminated quote, and the
two notice clauses at a concrete host. -/
theorem C6_loop_survives_failures_witness :
    managerStep ⟨true, "/tmp"⟩ (.line "echo 'oops") sampleEnv
      = (⟨true, "/tmp"⟩, ["Error: No closing quotation\n"])
    ∧ managerStep ⟨true, "/tmp"⟩ .eof sampleEnv
        = (⟨false, "/tmp"⟩, ["\nSession terminated.\n"]) :=
  ⟨C6_loop_survives_failures.1 "/tmp" sampleEnv "echo 'oops"
      (.valueError "No closing quotation") (by decide) (by decide),
   C6_loop_survives_failures.2.2.1 "/tmp" sampleEnv⟩

/-- C8: `ls` with no argument targets the current directory and with one
argument resolves the target like `cd` (absolute as-is, relative against
the current directory); on an existing directory it prints exactly the
entry names, one per line, sorted lexicographically ascending, with exit
code 0; on anything else it prints `ls: <target>: No such directory`,
returns 1 and lists nothing. -/
theorem C8_ls_sorted_listing :
    (∀ (env : Env) (osCwd : String) (d : Option String) (cmd : ParsedCommand)
        (entries : List String),
        listdirOS env osCwd (lsTarget cmd.args d osCwd) = some entries →
        lsExecute cmd d osCwd env = ⟨0, osCwd, (pySorted entries).map (· ++ "\n")⟩
          ∧ List.Sorted pyLe (pySorted entries)
          ∧ (pySorted entries).Perm entries)
    ∧ (∀ (env : Env) (osCwd : String) (d : Option String) (cmd : ParsedCommand),
        listdirOS env osCwd (lsTarget cmd.args d osCwd) = none →
        lsExecute cmd d osCwd env
          = ⟨1, osCwd, ["ls: " ++ lsTarget cmd.args d osCwd ++ ": No such directory" ++ "\n"]⟩)
    ∧ (∀ osCwd : String, lsTarget [] none osCwd = osCwd)
    ∧ (∀ (cur a osCwd : String), cur ≠ "" → isabs a = false →
        lsTarget [a] (some cur) osCwd = normpath (pjoin cur a))
    ∧ (∀ (a osCwd : String) (d : Option String), isabs a = true → lsTarget [a] d osCwd = a) := by
  refine ⟨?_, ?_, fun osCwd => rfl, ?_, ?_⟩
  · intro env osCwd d cmd entries h
    refine ⟨by simp only [lsExecute, h], ?_, List.perm_insertionSort pyLe entries⟩
    exact List.sorted_insertionSort pyLe entries
  · intro env osCwd d cmd h
    simp only [lsExecute, h]
  · intro cur a osCwd hcur ha
    unfold lsTarget
    simp [hcur, ha]
  · intro a osCwd d h
    cases d with
    | none => rfl
    | some cur =>
      unfold lsTarget
      simp [h]

/-- C8 witness: a concrete unsorted directory is printed sorted with exit 0,
and a missing target yields the diagnostic with exit 1 and no listing. -/
theorem C8_ls_sorted_listing_witness :
    lsExecute ⟨"ls", ["/tmp"]⟩ none "/" sampleEnv = ⟨0, "/", ["f.txt\n", "x\n"]⟩
    ∧ lsExecute ⟨"ls", ["nope"]⟩ none "/tmp" sampleEnv
        = ⟨1, "/tmp", ["ls: nope: No such directory" ++ "\n"]⟩ := by
  constructor
  · have h := (C8_ls_sorted_listing.1 sampleEnv "/" none ⟨"ls", ["/tmp"]⟩
      ["x", "f.txt"] (by decide)).1
    rw [h]
    decide
  · exact C8_ls_sorted_listing.2.1 sampleEnv "/tmp" none ⟨"ls", ["nope"]⟩ (by decide)

/-- C9 counterexample: from current directory `/tmp/x`, `cd y` succeeds and
the following `pwd` prints `/tmp/x/y` — the absolute resolved path — which
is not the path-normalized `<dir>` (`normpath "y" = "y"`), refuting the
claim for relative directories. -/
theorem C9_cd_pwd_roundtrip_fails :
    managerStep ⟨true, "/tmp/x"⟩ (.line "cd y") sampleEnv
      = (⟨true, "/tmp/x/y"⟩, ["Exit code: 0\n"])
    ∧ managerStep ⟨true, "/tmp/x/y"⟩ (.line "pwd") sampleEnv
        = (⟨true, "/tmp/x/y"⟩, ["/tmp/x/y" ++ "\n", "Exit code: 0\n"])
    ∧ normpath "y" = "y"
    ∧ ("/tmp/x/y" : String) ≠ "y" := by
  refine ⟨by decide, by decide, by decide, by decide⟩

/-- C9 as amended: whenever `cd <dir>` succeeds, the new current directory —
which an immediately following `pwd` prints — is the resolution of `<dir>`
against the pre-`cd` current directory, path-normalized; when `<dir>` is
absolute this is `<dir>` path-normalized, but for a relative `<dir>` it is
the absolute resolved path, not `<dir>` itself. -/
theorem C9_cd_pwd_roundtrip (env : Env) (osCwd dir : String)
    (h : (cdExecute ⟨"cd", [dir]⟩ none osCwd env).exit = 0) :
    (cdExecute ⟨"cd", [dir]⟩ none osCwd env).osCwd = normpath (pjoin osCwd dir)
    ∧ pwdExecute ⟨"pwd", []⟩ none ((cdExecute ⟨"cd", [dir]⟩ none osCwd env).osCwd) env
        = ⟨0, normpath (pjoin osCwd dir), [normpath (pjoin osCwd dir) ++ "\n"]⟩
    ∧ (isabs dir = true →
        (cdExecute ⟨"cd", [dir]⟩ none osCwd env).osCwd = normpath dir) := by
  by_cases hd : isdirOS env osCwd (cdTarget [dir] none env.home) = true
  · have hc : cdExecute ⟨"cd", [dir]⟩ none osCwd env
        = ⟨0, osResolve osCwd (cdTarget [dir] none env.home), []⟩ := by
      unfold cdExecute
      rw [if_pos hd]
    rw [hc]
    refine ⟨rfl, rfl, ?_⟩
    intro ha
    show osResolve osCwd dir = normpath dir
    unfold osResolve
    rw [pjoin_absolute _ _ ha]
  · exfalso
    have hc : cdExecute ⟨"cd", [dir]⟩ none osCwd env
        = ⟨1, osCwd, ["cd: " ++ cdTarget [dir] none env.home ++ ": No such directory" ++ "\n"]⟩ := by
      unfold cdExecute
      rw [if_neg hd]
    rw [hc] at h
    simp at h

/-- C9 amended witness: the round-trip at the concrete absolute directory
`/tmp/x` from `/tmp`. -/
theorem C9_cd_pwd_roundtrip_witness :
    (cdExecute ⟨"cd", ["/tmp/x"]⟩ none "/tmp" sampleEnv).osCwd
        = normpath (pjoin "/tmp" "/tmp/x")
    ∧ (cdExecute ⟨"cd", ["/tmp/x"]⟩ none "/tmp" sampleEnv).osCwd = normpath "/tmp/x" :=
  ⟨(C9_cd_pwd_roundtrip sampleEnv "/tmp" "/tmp/x" (by decide)).1,
   (C9_cd_pwd_roundtrip sampleEnv "/tmp" "/tmp/x" (by decide)).2.2 (by decide)⟩

/-- C10 witness: both clauses at a concrete host. -/
theorem C10_empty_input_executes_nothing_witness :
    executorExecute ⟨[]⟩ none "/tmp" sampleEnv = ⟨.ok 0, "/tmp", [], []⟩
    ∧ processParsed ⟨[]⟩ "/tmp" sampleEnv = ⟨.ok 0, "/tmp", [], []⟩ :=
  ⟨C10_empty_input_executes_nothing.1 none "/tmp" sampleEnv,
   C10_empty_input_executes_nothing.2 ⟨[]⟩ "/tmp" sampleEnv rfl⟩

end BasicCli
